import Mathlib

/-!
Shallow embedding of the laju-io room-pairing and transfer-signaling core:
`src/pages/api/create-room.js`, `src/pages/index.js` and the variant client
in `src/unnamed/part_000`. Pure functions of the JavaScript source are
translated to Lean functions; the handful of asynchronous environment
events (FileReader / Image callbacks, HTTP responses, XHR completion) are
passed in as explicit parameters, and effects (store mutations, broadcast
publications) are returned as explicit action traces.
-/

namespace Laju

/-- Embedding of the JavaScript built-in `String.prototype.toUpperCase`,
which upper-cases a string character by character. -/
def toUpperCase (s : String) : String :=
  String.mk (s.toList.map Char.toUpper)

/-- Embedding of the JavaScript built-in `String.prototype.startsWith`,
which tests character by character whether the second string is a prefix
of the first. -/
def startsWith (s pre : String) : Bool :=
  pre.toList.isPrefixOf s.toList

/-- Embedding of the JavaScript `chars.charAt(i)` access used in
`generateRoomCode` (`src/pages/api/create-room.js`); the index produced by
`Math.floor(Math.random() * chars.length)` is always in range, so the
out-of-range default is never reached. -/
def charAt (s : String) (i : Nat) : Char :=
  s.toList.getD i ' '

/-- The fixed alphabet of `generateRoomCode` in
`src/pages/api/create-room.js` (line 5). -/
def roomCodeChars : String := "ABCDEFGHIJKLMNPQRSTUVWXYZ123456789"

/-- `generateRoomCode` from `src/pages/api/create-room.js` (lines 4-11):
four iterations, each appending `chars.charAt(Math.floor(Math.random() *
chars.length))`. The random draws are modelled as a function `rand` giving,
for each of the four loop indices, the chosen index into the 34-character
alphabet. -/
def generateRoomCode (rand : Fin 4 → Fin 34) : String :=
  String.mk (List.ofFn (fun i : Fin 4 => charAt roomCodeChars (rand i).val))

/-- Room status column of the `rooms` table (spec section 3): `waiting`,
`connected` or `closed`. -/
inductive Status
  | waiting
  | connected
  | closed
deriving DecidableEq, Repr

/-- A row of the `rooms` table (spec section 3). -/
structure Room where
  id : Nat
  room_code : String
  host_id : String
  guest_id : Option String
  status : Status
deriving DecidableEq, Repr

/-- The row predicate of the atomic join update: `room_code` matches the
requested code case-insensitively and the row is still `waiting`. -/
def matchJoin (r : Room) (code : String) : Bool :=
  toUpperCase r.room_code == toUpperCase code && r.status == Status.waiting

/-- The update applied by the atomic join to a matching row: set
`guest_id` to the joining client and `status` to `connected`. -/
def claimRoom (r : Room) (guest : String) : Room :=
  { r with guest_id := some guest, status := Status.connected }

/-- Modelled from the spec: the `join_room_atomic` stored procedure that
`src/pages/index.js` (lines 155-158) invokes through `supabase.rpc` is a
database function not present under `src/`. Per spec section 4.1 it is the
single atomic conditional update "set `guest_id = guestId`, `status =
connected` WHERE `room_code` matches (case-insensitive) AND `status =
waiting`", returning the updated record only if the condition matched.
The result is the updated store together with the list of updated rows
(the `data` the caller receives; empty when no row matched). -/
def join_room_atomic (store : List Room) (code guest : String) :
    List Room × List Room :=
  (store.map (fun r => if matchJoin r code then claimRoom r guest else r),
   (store.filter (fun r => matchJoin r code)).map (fun r => claimRoom r guest))

/-- JavaScript truthiness of an optional string value (`undefined` and the
empty string are falsy), used for the `if (!hostId)` and `if (!clientId)`
guards. -/
def truthyStr : Option String → Bool
  | none => false
  | some s => !(s == "")

/-- `true` when some non-closed room in the store already carries the given
code. -/
def codeInUse (store : List Room) (code : String) : Bool :=
  store.any (fun r => r.room_code == code && r.status != Status.closed)

/-- Modelled from the spec: the `rooms` table schema is not under `src/`.
Per spec section 3, `room_code` uniqueness is enforced among non-closed
rooms (so an insert with a code already in use by a non-closed room fails
with a store error), and per section 4.1 a new record is created with
`status = waiting` — the insert in `src/pages/api/create-room.js` (line 33)
passes only `room_code` and `host_id`, so `id`, `guest_id` and the
`waiting` status are store-side defaults. Returns the inserted row and the
new store, or a store error. -/
def roomsInsert (store : List Room) (code host : String) (newId : Nat) :
    Except String (List Room × Room) :=
  if codeInUse store code then
    Except.error "duplicate key value violates unique constraint"
  else
    let r : Room := { id := newId, room_code := code, host_id := host,
                      guest_id := none, status := Status.waiting }
    Except.ok (store ++ [r], r)

/-- HTTP response of the room-creation endpoint: status code plus the
created room record when present. -/
structure ApiResponse where
  statusCode : Nat
  body : Option Room
deriving DecidableEq, Repr

/-- The `handler` of `src/pages/api/create-room.js` (lines 13-49): rejects
non-POST methods with 405, rejects a missing (falsy) `hostId` with 400,
otherwise generates one room code and inserts it; a store error is caught
and reported as 500, success returns 200 with the inserted record. The
random draws of `generateRoomCode` and the store-assigned row id are
explicit parameters. -/
def createRoomHandler (method : String) (hostId : Option String)
    (store : List Room) (rand : Fin 4 → Fin 34) (newId : Nat) :
    ApiResponse × List Room :=
  if method ≠ "POST" then ({ statusCode := 405, body := none }, store)
  else if !(truthyStr hostId) then ({ statusCode := 400, body := none }, store)
  else
    let roomCode := generateRoomCode rand
    match roomsInsert store roomCode (hostId.getD "") newId with
    | Except.error _ => ({ statusCode := 500, body := none }, store)
    | Except.ok (store2, data) =>
        ({ statusCode := 200, body := some data }, store2)

/-- Outcome of the `joinRoom` callback in `src/pages/index.js` (lines
149-169); the four constructors mirror its four distinct `throw` / success
sites: the pre-flight guards, a non-null rpc `error`, an empty `data`
result, and `setRoom(data[0])`. -/
inductive JoinOutcome
  | guardError (msg : String)
  | storeError (msg : String)
  | notJoinable (msg : String)
  | joined (r : Room)
deriving DecidableEq, Repr

/-- The rpc-result handling of `joinRoom` in `src/pages/index.js` (lines
160-163): a non-null `error` throws `error.message ||
'Terjadi kesalahan saat bergabung.'`; empty `data` throws the
not-joinable message; otherwise `data[0]` is accepted. -/
def joinRpcResult (err : Option String) (data : List Room) : JoinOutcome :=
  match err with
  | some msg =>
      JoinOutcome.storeError
        (if msg == "" then "Terjadi kesalahan saat bergabung." else msg)
  | none =>
      match data with
      | [] => JoinOutcome.notJoinable "Kode ruang tidak ditemukan atau sudah penuh."
      | r :: _ => JoinOutcome.joined r

/-- `joinRoom` from `src/pages/index.js` (lines 149-169): guards on
`clientId` and the 4-character code, then calls the `join_room_atomic` rpc
with the upper-cased code and classifies the result via `joinRpcResult`.
`rpcFailure` models a store-level failure of the rpc call (in which case
the store is not updated). -/
def joinRoomClient (clientId : Option String) (roomCode : String)
    (store : List Room) (rpcFailure : Option String) :
    JoinOutcome × List Room :=
  if !(truthyStr clientId) then
    (JoinOutcome.guardError "Client ID belum siap.", store)
  else if roomCode.length ≠ 4 then
    (JoinOutcome.guardError "Kode ruang harus 4 karakter.", store)
  else
    match rpcFailure with
    | some msg => (joinRpcResult (some msg) [], store)
    | none =>
        let res := join_room_atomic store (toUpperCase roomCode) (clientId.getD "")
        (joinRpcResult none res.2, res.1)

/-- Outcome of the `joinRoom` handler of the `HomePage` variant in
`src/unnamed/part_000` (lines 1016-1024): a single `setError` site with
one fixed message serves both the rpc-error and the empty-data branch. -/
inductive HomeJoinOutcome
  | errorMsg (msg : String)
  | joined (r : Room)
deriving DecidableEq, Repr

/-- `joinRoom` from the `HomePage` component in `src/unnamed/part_000`
(lines 1016-1024): `if (error || !data || data.length === 0)
setError('Kode tidak ditemukan atau room sudah penuh.'); else
setRoom(data[0])`. -/
def joinRoomHome (clientId : String) (joinCode : String)
    (store : List Room) (rpcFailure : Option String) :
    HomeJoinOutcome × List Room :=
  match rpcFailure with
  | some _ =>
      (HomeJoinOutcome.errorMsg "Kode tidak ditemukan atau room sudah penuh.", store)
  | none =>
      let res := join_room_atomic store (toUpperCase joinCode) clientId
      match res.2 with
      | [] =>
          (HomeJoinOutcome.errorMsg "Kode tidak ditemukan atau room sudah penuh.",
           res.1)
      | r :: _ => (HomeJoinOutcome.joined r, res.1)

/-- A file as handed to the upload/thumbnail utilities: name, MIME type
and size in bytes. -/
structure FileData where
  name : String
  type : String
  size : Nat
deriving DecidableEq, Repr

/-- Settlement of the `createThumbnail` promise: it resolves with a value,
rejects, or never settles (an exception escaped an event handler). -/
inductive ThumbResult
  | resolved (v : Option String)
  | rejected (msg : String)
  | unsettled
deriving DecidableEq, Repr

/-- Terminal event of the `FileReader.readAsDataURL` call: `onload` with
the data URL, or `onerror`. -/
inductive ReadEvent
  | loaded (dataUrl : String)
  | failed
deriving DecidableEq, Repr

/-- Terminal event of a DOM image decode: `onload` with the natural
dimensions, or `onerror`. In both cited `createThumbnail` variants no
such event can ever occur, because the `Image` identifier there is
shadowed by a component import (see `createThumbnail`); the type is kept
so the environment still offers the event the handler body was written
for. -/
inductive ImgEvent
  | loaded (width height : ℚ)
  | failed
deriving DecidableEq, Repr

/-- Result of `canvas.toDataURL('image/jpeg', q)`: the encoded data URL,
or a thrown exception. Unreachable in both cited variants, since the
`img.onload` handler that would call it never fires. -/
inductive EncodeResult
  | ok (dataUrl : String)
  | thrown
deriving DecidableEq, Repr

/-- The asynchronous environment of one `createThumbnail` run: the reader
event, the image event, and the encoder as a function of the canvas
dimensions it is given. Only `readEvent` is consumed by the two cited
variants; `imgEvent` and `encode` describe the decode/encode steps that
their shadowed `Image` prevents from ever running. -/
structure ThumbEnv where
  readEvent : ReadEvent
  imgEvent : ImgEvent
  encode : ℚ → ℚ → EncodeResult

/-- The thumbnail bounding size (`MAX_SIZE = 120` in both variants). -/
def MAX_SIZE : ℚ := 120

/-- The dimension clamping written inside the `img.onload` handler of
`createThumbnail` (`src/pages/index.js` lines 45-56): the larger side is
clamped to `MAX_SIZE` and the other side scaled proportionally. Dead code
in both cited variants, since that handler never fires. -/
def scaleDims (width height : ℚ) : ℚ × ℚ :=
  if width > height then
    if width > MAX_SIZE then (MAX_SIZE, height * (MAX_SIZE / width))
    else (width, height)
  else
    if height > MAX_SIZE then (width * (MAX_SIZE / height), MAX_SIZE)
    else (width, height)

/-- `createThumbnail` from `src/pages/index.js` (lines 30-75): resolves
`null` for an absent file or a non-`image/` MIME type and on
`reader.onerror`. Once the read succeeds, line 39 does `new Image()` —
but `Image` there is the `next/image` component imported on line 4 (the
lucide icon is aliased to `ImageIcon`), not the DOM constructor, so the
constructed value is no `HTMLImageElement`: the `onload`/`onerror`
assignments and the `src` write never start a load, neither handler ever
fires, and the promise never settles. The clamping and `toDataURL` code
inside the `onload` handler (`scaleDims`, `ThumbEnv.encode`) is
unreachable. -/
def createThumbnail (file : Option FileData) (env : ThumbEnv) : ThumbResult :=
  match file with
  | none => ThumbResult.resolved none
  | some f =>
      if ¬ (startsWith f.type "image/") then ThumbResult.resolved none
      else
        match env.readEvent with
        | ReadEvent.failed => ThumbResult.resolved none
        | ReadEvent.loaded _ => ThumbResult.unsettled

/-- `createThumbnail` from `src/unnamed/part_000` (lines 27-57): same
shape, but there `Image` (imported from lucide-react on line 2) is an
icon component — a `forwardRef` object that is not constructible — so
`new Image()` at line 35 throws inside the `reader.onload` handler, the
exception escapes the handler, and the promise never settles. The
absent-file and non-image guards and `reader.onerror` still resolve
`null` before that point. -/
def createThumbnailVariant (file : Option FileData) (env : ThumbEnv) : ThumbResult :=
  match file with
  | none => ThumbResult.resolved none
  | some f =>
      if ¬ (startsWith f.type "image/") then ThumbResult.resolved none
      else
        match env.readEvent with
        | ReadEvent.failed => ThumbResult.resolved none
        | ReadEvent.loaded _ => ThumbResult.unsettled

/-- The upload grant returned by `/api/generate-upload-url`. -/
structure Grant where
  uploadUrl : String
  downloadUrl : String
deriving DecidableEq, Repr

/-- Result of the grant fetch: an OK response carrying the grant, or a
non-OK response whose JSON body may carry a `message`. -/
inductive HttpResult
  | ok (g : Grant)
  | httpError (message : Option String)
deriving DecidableEq, Repr

/-- Terminal event of the XHR byte upload: `onload` with a status code,
`onerror`, or `onabort`. -/
inductive XhrEvent
  | load (status : Nat)
  | netError
  | aborted
deriving DecidableEq, Repr

/-- The JavaScript `m || dflt` defaulting applied to the optional error
message of a failed response (`errorData.message || '...'`). -/
def orDefault (m : Option String) (dflt : String) : String :=
  match m with
  | some s => if s == "" then dflt else s
  | none => dflt

/-- The Transfer Announcement payload built by `handleUpload` in
`src/pages/index.js` (lines 508-514). -/
structure Payload where
  fileName : String
  url : String
  thumbnail : Option String
  type : String
  size : Nat
deriving DecidableEq, Repr

/-- Externally visible step of a send flow, in order of occurrence: the
upload-grant fetch, the XHR byte transfer, the broadcast publication. -/
inductive UploadStep
  | grantRequest (fileName fileType : String)
  | putBytes (uploadUrl : String) (size : Nat)
  | publish (p : Payload)
deriving DecidableEq, Repr

/-- Final outcome of `handleUpload`: early return on no files, a caught
error with its toast message, a hung await, or a completed send. -/
inductive UploadOutcome
  | noFiles
  | failed (msg : String)
  | hung
  | sent
deriving DecidableEq, Repr

/-- `handleUpload` from `src/pages/index.js` (lines 428-534): early return
when no files; more than one file is zipped (`zipBlob` models the JSZip
output) under the name `laju-io-paket-N-files.zip`; a payload above 200MB
throws before any network step; then the thumbnail is awaited, the grant
is fetched, the bytes are PUT via XHR, and only after a 2xx completion is
the announcement published. Returns the network/broadcast trace and the
outcome. -/
def handleUpload (files : List FileData) (zipBlob : FileData)
    (env : ThumbEnv) (grantResp : HttpResult) (xhr : XhrEvent) :
    List UploadStep × UploadOutcome :=
  match files with
  | [] => ([], UploadOutcome.noFiles)
  | f0 :: rest =>
      let fileToUpload := if 1 < (f0 :: rest).length then zipBlob else f0
      let originalFileName :=
        if 1 < (f0 :: rest).length then
          "laju-io-paket-" ++ toString (f0 :: rest).length ++ "-files.zip"
        else f0.name
      if 200 * 1024 * 1024 < fileToUpload.size then
        ([], UploadOutcome.failed "File terlalu besar (Maks 200MB).")
      else
        match createThumbnail (some f0) env with
        | ThumbResult.unsettled => ([], UploadOutcome.hung)
        | ThumbResult.rejected msg => ([], UploadOutcome.failed msg)
        | ThumbResult.resolved thumbnail =>
            match grantResp with
            | HttpResult.httpError m =>
                ([UploadStep.grantRequest originalFileName fileToUpload.type],
                 UploadOutcome.failed
                   (orDefault m "Gagal mendapatkan izin upload."))
            | HttpResult.ok grant =>
                match xhr with
                | XhrEvent.load status =>
                    if 200 ≤ status ∧ status < 300 then
                      ([UploadStep.grantRequest originalFileName fileToUpload.type,
                        UploadStep.putBytes grant.uploadUrl fileToUpload.size,
                        UploadStep.publish
                          { fileName := originalFileName,
                            url := grant.downloadUrl,
                            thumbnail := thumbnail,
                            type := fileToUpload.type,
                            size := fileToUpload.size }],
                       UploadOutcome.sent)
                    else
                      ([UploadStep.grantRequest originalFileName fileToUpload.type,
                        UploadStep.putBytes grant.uploadUrl fileToUpload.size],
                       UploadOutcome.failed "Upload gagal.")
                | XhrEvent.netError =>
                    ([UploadStep.grantRequest originalFileName fileToUpload.type,
                      UploadStep.putBytes grant.uploadUrl fileToUpload.size],
                     UploadOutcome.failed "Upload gagal.")
                | XhrEvent.aborted =>
                    ([UploadStep.grantRequest originalFileName fileToUpload.type,
                      UploadStep.putBytes grant.uploadUrl fileToUpload.size],
                     UploadOutcome.failed "Upload dibatalkan.")

/-- The announcement payload of the `ConnectedRoom` variant in
`src/unnamed/part_000` (line 875), which carries no `size` field. -/
structure VariantPayload where
  fileName : String
  url : String
  thumbnail : Option String
  type : String
deriving DecidableEq, Repr

/-- Externally visible step of the variant send flow. -/
inductive VUploadStep
  | grantRequest (fileName fileType : String)
  | putBytes (uploadUrl : String)
  | publish (p : VariantPayload)
deriving DecidableEq, Repr

/-- `handleUpload` from the `ConnectedRoom` component of
`src/unnamed/part_000` (lines 844-880): awaits its local thumbnail
promise (its settlement is the `thumbRes` parameter), fetches the grant,
returns on a non-OK grant response, PUTs the bytes, returns on a non-OK
upload response, and only then publishes the announcement. -/
def handleUploadVariant (file : FileData) (thumbRes : ThumbResult)
    (grantResp : Option Grant) (putOk : Bool) :
    List VUploadStep × UploadOutcome :=
  match thumbRes with
  | ThumbResult.unsettled => ([], UploadOutcome.hung)
  | ThumbResult.rejected msg => ([], UploadOutcome.failed msg)
  | ThumbResult.resolved thumbnail =>
      match grantResp with
      | none =>
          ([VUploadStep.grantRequest file.name file.type],
           UploadOutcome.failed "Gagal mendapatkan izin unggah.")
      | some grant =>
          if putOk then
            ([VUploadStep.grantRequest file.name file.type,
              VUploadStep.putBytes grant.uploadUrl,
              VUploadStep.publish
                { fileName := file.name, url := grant.downloadUrl,
                  thumbnail := thumbnail, type := file.type }],
             UploadOutcome.sent)
          else
            ([VUploadStep.grantRequest file.name file.type,
              VUploadStep.putBytes grant.uploadUrl],
             UploadOutcome.failed "Unggah file gagal.")

/-- `handleUpload` from the mock `ConnectedRoom` of `src/unnamed/part_000`
(lines 430-479): returns on an absent file, short-circuits with the
100MB size-limit toast before anything else, then awaits the variant
thumbnail and delivers the file locally (`URL.createObjectURL` is the
`objectUrl` parameter); it performs no network step at all, so its trace
of `UploadStep`s is always empty. -/
def handleUploadMock (file : Option FileData) (env : ThumbEnv)
    (objectUrl : String) :
    List UploadStep × UploadOutcome × Option Payload :=
  match file with
  | none => ([], UploadOutcome.noFiles, none)
  | some f =>
      if 100 * 1024 * 1024 < f.size then
        ([], UploadOutcome.failed "File terlalu besar. Maksimum 100MB.", none)
      else
        match createThumbnailVariant (some f) env with
        | ThumbResult.unsettled => ([], UploadOutcome.hung, none)
        | ThumbResult.rejected _ =>
            ([], UploadOutcome.failed "Gagal mengupload file", none)
        | ThumbResult.resolved thumb =>
            ([], UploadOutcome.sent,
             some { fileName := f.name, url := objectUrl, thumbnail := thumb,
                    type := f.type, size := f.size })

/-- A message on the per-room broadcast topic. -/
structure BroadcastMessage where
  event : String
  payload : Payload
deriving DecidableEq, Repr

/-- The message sent by `channel.send({ type: 'broadcast', event:
'file-transfer', payload })` in `src/pages/index.js` (line 517). -/
def sendAnnouncement (p : Payload) : BroadcastMessage :=
  { event := "file-transfer", payload := p }

/-- Modelled from the spec: the Ephemeral Broadcast Channel (spec section
4.3) is the external Supabase realtime transport; when the recipient's
subscription is active it delivers a published message verbatim,
at-most-once. -/
def channelDeliver (m : BroadcastMessage) : BroadcastMessage := m

/-- An entry of the transfer history (`addToHistory` spreads the payload
and adds a timestamp and direction). -/
structure HistoryItem where
  payload : Payload
  timestamp : Nat
  direction : String
deriving DecidableEq, Repr

/-- The recipient-side state touched by the broadcast subscription. -/
structure ReceiverState where
  incomingFile : Option Payload
  history : List HistoryItem
deriving DecidableEq, Repr

/-- The broadcast subscription handler of `ConnectedRoom` in
`src/pages/index.js` (lines 398-405): on a `file-transfer` event it
stores the received payload as the incoming file and prepends it to the
history (`[item, ...prev].slice(0, 20)`). -/
def onBroadcast (st : ReceiverState) (m : BroadcastMessage) (now : Nat) :
    ReceiverState :=
  if m.event == "file-transfer" then
    { incomingFile := some m.payload,
      history := ({ payload := m.payload, timestamp := now,
                    direction := "incoming" } :: st.history).take 20 }
  else st

/-- Mutation requested against the Room Store. -/
inductive StoreAction
  | deleteRoom (id : Nat)
deriving DecidableEq, Repr

/-- Effect of a store action on the `rooms` table:
`supabase.from('rooms').delete().eq('id', roomId)`. -/
def applyStoreAction (store : List Room) : StoreAction → List Room
  | StoreAction.deleteRoom rid => store.filter (fun r => r.id != rid)

/-- `cancelRoom` from `src/pages/index.js` (lines 171-182): when a room is
held it deletes the Room Store record by id, and in every case clears the
local room state. -/
def cancelRoom (room : Option Room) : Option Room × List StoreAction :=
  match room with
  | some r => (none, [StoreAction.deleteRoom r.id])
  | none => (none, [])

/-- The cadence of the auto-cleanup interval in `src/pages/index.js`
(line 193): `60 * 1000` milliseconds. -/
def cleanupIntervalMs : Nat := 60 * 1000

/-- The idle limit of the auto-cleanup check (line 190): `30 * 60 * 1000`
milliseconds. -/
def idleLimitMs : Nat := 30 * 60 * 1000

/-- One tick of the auto-cleanup interval of `src/pages/index.js` (lines
185-196): the effect is only installed while a room is held; when the
time since the last activity exceeds 30 minutes it runs `cancelRoom`. -/
def cleanupTick (room : Option Room) (lastActivity now : Nat) :
    Option Room × List StoreAction :=
  match room with
  | none => (none, [])
  | some r =>
      if idleLimitMs < now - lastActivity then cancelRoom (some r)
      else (some r, [])

end Laju

namespace Laju

/- Theorems for the room-code generator. -/

/-- Each alphabet character is its own upper-casing and lies in the
alphabet; checked by enumerating the 34 positions. -/
theorem charAt_roomCodeChars_mem (j : Fin 34) :
    charAt roomCodeChars j.val ∈ roomCodeChars.toList ∧
    (charAt roomCodeChars j.val).toUpper = charAt roomCodeChars j.val := by
  revert j
  decide

/-- C8: Every room code produced by `generateRoomCode` is exactly 4
characters long, every character is drawn from the fixed alphabet
`ABCDEFGHIJKLMNPQRSTUVWXYZ123456789`, that alphabet excludes the ambiguous
characters `O` and `0`, and the code equals its own upper-casing. -/
theorem generateRoomCode_format (rand : Fin 4 → Fin 34) :
    (generateRoomCode rand).length = 4 ∧
    ((generateRoomCode rand).toList.all
      (fun c => decide (c ∈ roomCodeChars.toList))) = true ∧
    toUpperCase (generateRoomCode rand) = generateRoomCode rand ∧
    'O' ∉ roomCodeChars.toList ∧ '0' ∉ roomCodeChars.toList := by
  refine ⟨?_, ?_, ?_, by decide, by decide⟩
  · simp [generateRoomCode, String.length]
  · rw [List.all_eq_true]
    intro c hc
    rw [decide_eq_true_eq]
    simp only [generateRoomCode, String.toList, String.mk, List.mem_ofFn] at hc
    obtain ⟨i, hi⟩ := hc
    exact hi ▸ (charAt_roomCodeChars_mem (rand i)).1
  · simp only [toUpperCase, generateRoomCode, String.toList, String.mk,
      List.map_ofFn]
    congr 1
    exact congrArg List.ofFn
      (funext fun i => (charAt_roomCodeChars_mem (rand i)).2)

/- Theorems for the room-creation endpoint. -/

/-- C9: a request whose method is not POST is answered with 405 and the
store is untouched; a POST whose body lacks a truthy `hostId` is answered
with 400 and the store is untouched. -/
theorem createRoomHandler_guards (method : String) (hostId : Option String)
    (store : List Room) (rand : Fin 4 → Fin 34) (newId : Nat) :
    (method ≠ "POST" →
      createRoomHandler method hostId store rand newId =
        ({ statusCode := 405, body := none }, store)) ∧
    (truthyStr hostId = false →
      createRoomHandler "POST" hostId store rand newId =
        ({ statusCode := 400, body := none }, store)) := by
  constructor
  · intro h
    simp [createRoomHandler, h]
  · intro h
    simp [createRoomHandler, h]

/-- C9 witness: a GET request is answered 405, a POST without `hostId` is
answered 400, neither mutates the store. -/
theorem createRoomHandler_guards_witness :
    createRoomHandler "GET" (some "h1") [] (fun _ => 0) 7 =
      ({ statusCode := 405, body := none }, []) ∧
    createRoomHandler "POST" none [] (fun _ => 0) 7 =
      ({ statusCode := 400, body := none }, []) :=
  ⟨(createRoomHandler_guards "GET" (some "h1") [] (fun _ => 0) 7).1 (by decide),
   (createRoomHandler_guards "POST" none [] (fun _ => 0) 7).2 (by decide)⟩

/-- C2: on a POST with a truthy host id, if the single generated code is
free among non-closed rooms the handler returns 200 with the full inserted
record (`status = waiting`, the generated code, no guest) and appends it
to the store; if the generated code is already in use the single bounded
generation attempt fails and the handler reports the 500 CreateFailed
response with the store unchanged; in particular a 200 response implies
the generated code was not in use by any non-closed room. -/
theorem createRoomHandler_spec (h : String) (hh : h ≠ "")
    (store : List Room) (rand : Fin 4 → Fin 34) (newId : Nat) :
    (codeInUse store (generateRoomCode rand) = false →
      createRoomHandler "POST" (some h) store rand newId =
        ({ statusCode := 200,
           body := some { id := newId, room_code := generateRoomCode rand,
                          host_id := h, guest_id := none,
                          status := Status.waiting } },
         store ++ [{ id := newId, room_code := generateRoomCode rand,
                     host_id := h, guest_id := none,
                     status := Status.waiting }])) ∧
    (codeInUse store (generateRoomCode rand) = true →
      createRoomHandler "POST" (some h) store rand newId =
        ({ statusCode := 500, body := none }, store)) ∧
    ((createRoomHandler "POST" (some h) store rand newId).1.statusCode = 200 →
      codeInUse store (generateRoomCode rand) = false) := by
  have ht : truthyStr (some h) = true := by
    simp [truthyStr, hh]
  refine ⟨?_, ?_, ?_⟩
  · intro hfree
    simp [createRoomHandler, ht, roomsInsert, hfree]
  · intro hdup
    simp [createRoomHandler, ht, roomsInsert, hdup]
  · intro h200
    by_cases hc : codeInUse store (generateRoomCode rand) = true
    · simp [createRoomHandler, ht, roomsInsert, hc] at h200
    · exact Bool.eq_false_iff.mpr hc

/-- C2 witness: with the constant draw 0 the generated code is `AAAA`,
which is free in the empty store, so the call succeeds and returns the
full waiting record. -/
theorem createRoomHandler_spec_witness :
    createRoomHandler "POST" (some "host123") [] (fun _ => 0) 5 =
      ({ statusCode := 200,
         body := some { id := 5, room_code := "AAAA", host_id := "host123",
                        guest_id := none, status := Status.waiting } },
       [{ id := 5, room_code := "AAAA", host_id := "host123",
          guest_id := none, status := Status.waiting }]) :=
  ((createRoomHandler_spec "host123" (by decide) [] (fun _ => 0) 5).1
    (by decide)).trans (by decide)

/- Theorems for the atomic join operation. -/

/-- A row just claimed by the atomic join no longer satisfies the join
predicate: its status is `connected`, not `waiting`. -/
theorem matchJoin_claimRoom (r : Room) (guest code : String) :
    matchJoin (claimRoom r guest) code = false := by
  simp [matchJoin, claimRoom]

/-- After one pass of the atomic join update, a row never satisfies the
join predicate for that code: a matching row was claimed, a non-matching
row is unchanged. -/
theorem matchJoin_joinStep (r : Room) (code guest : String) :
    matchJoin (if matchJoin r code then claimRoom r guest else r) code = false := by
  by_cases h : matchJoin r code = true
  · rw [if_pos h]
    exact matchJoin_claimRoom r guest code
  · rw [if_neg h]
    exact Bool.eq_false_iff.mpr h

/-- No row of the store produced by an atomic join still satisfies the
join predicate for that code. -/
theorem join_room_atomic_no_rematch (store : List Room) (code guest : String) :
    ∀ r ∈ (join_room_atomic store code guest).1, matchJoin r code = false := by
  intro r hr
  simp only [join_room_atomic, List.mem_map] at hr
  obtain ⟨a, _, rfl⟩ := hr
  exact matchJoin_joinStep a code guest

/-- C1: when a waiting room matches the code, the first of two join
attempts (in whichever order they are linearized, since the guests are
arbitrary) returns a non-empty row set and installs its guest as the
room's `guest_id`; the second attempt matches zero rows, leaves the store
unchanged, and its empty result is reported by the `joinRoom` caller as
the RoomNotJoinable message. -/
theorem join_room_atomic_linearizable
    (store : List Room) (code g1 g2 : String) (r0 : Room)
    (h0 : r0 ∈ store) (h1 : matchJoin r0 code = true) :
    (join_room_atomic store code g1).2 ≠ [] ∧
    claimRoom r0 g1 ∈ (join_room_atomic store code g1).1 ∧
    (claimRoom r0 g1).guest_id = some g1 ∧
    (join_room_atomic (join_room_atomic store code g1).1 code g2).2 = [] ∧
    (join_room_atomic (join_room_atomic store code g1).1 code g2).1 =
      (join_room_atomic store code g1).1 ∧
    joinRpcResult none
        (join_room_atomic (join_room_atomic store code g1).1 code g2).2 =
      JoinOutcome.notJoinable "Kode ruang tidak ditemukan atau sudah penuh." := by
  have hfilter : r0 ∈ store.filter (fun r => matchJoin r code) :=
    List.mem_filter.mpr ⟨h0, h1⟩
  have hd2 : (join_room_atomic (join_room_atomic store code g1).1 code g2).2 = [] := by
    simp only [join_room_atomic]
    rw [List.filter_eq_nil_iff.mpr]
    · rfl
    · intro a ha
      simp [join_room_atomic_no_rematch store code g1 a ha]
  refine ⟨?_, ?_, rfl, hd2, ?_, ?_⟩
  · exact List.ne_nil_of_mem
      (List.mem_map_of_mem (fun r => claimRoom r g1) hfilter)
  · have hmem := List.mem_map_of_mem
      (fun r => if matchJoin r code then claimRoom r g1 else r) h0
    simp only [join_room_atomic]
    simpa [h1] using hmem
  · show ((join_room_atomic store code g1).1.map
        (fun r => if matchJoin r code then claimRoom r g2 else r)) = _
    rw [List.map_congr_left (g := id) (fun a ha => by
      rw [if_neg (by simp [join_room_atomic_no_rematch store code g1 a ha])]
      rfl)]
    exact List.map_id _
  · rw [hd2]
    rfl

/-- C1 witness: a single waiting room with code `K7M2`; the first join
(lower-case code `k7m2`) claims it for `guestA`, the second attempt for
`guestB` matches no row and is reported as not joinable. -/
theorem join_room_atomic_linearizable_witness :
    (join_room_atomic
        [{ id := 1, room_code := "K7M2", host_id := "host123",
           guest_id := none, status := Status.waiting }] "k7m2" "guestA").2 ≠ [] ∧
    claimRoom { id := 1, room_code := "K7M2", host_id := "host123",
                guest_id := none, status := Status.waiting } "guestA" ∈
      (join_room_atomic
        [{ id := 1, room_code := "K7M2", host_id := "host123",
           guest_id := none, status := Status.waiting }] "k7m2" "guestA").1 ∧
    (claimRoom { id := 1, room_code := "K7M2", host_id := "host123",
                 guest_id := none, status := Status.waiting } "guestA").guest_id =
      some "guestA" ∧
    (join_room_atomic
        (join_room_atomic
          [{ id := 1, room_code := "K7M2", host_id := "host123",
             guest_id := none, status := Status.waiting }] "k7m2" "guestA").1
        "k7m2" "guestB").2 = [] ∧
    (join_room_atomic
        (join_room_atomic
          [{ id := 1, room_code := "K7M2", host_id := "host123",
             guest_id := none, status := Status.waiting }] "k7m2" "guestA").1
        "k7m2" "guestB").1 =
      (join_room_atomic
          [{ id := 1, room_code := "K7M2", host_id := "host123",
             guest_id := none, status := Status.waiting }] "k7m2" "guestA").1 ∧
    joinRpcResult none
        (join_room_atomic
          (join_room_atomic
            [{ id := 1, room_code := "K7M2", host_id := "host123",
               guest_id := none, status := Status.waiting }] "k7m2" "guestA").1
          "k7m2" "guestB").2 =
      JoinOutcome.notJoinable "Kode ruang tidak ditemukan atau sudah penuh." :=
  join_room_atomic_linearizable
    [{ id := 1, room_code := "K7M2", host_id := "host123",
       guest_id := none, status := Status.waiting }] "k7m2" "guestA" "guestB"
    { id := 1, room_code := "K7M2", host_id := "host123",
      guest_id := none, status := Status.waiting }
    (by decide) (by decide)

/- Theorems for store-error reporting of the join callers. -/

/-- C5 counterexample: in the `HomePage` variant of `src/unnamed/part_000`
a store-level rpc failure (here `connection refused`) yields exactly the
RoomNotJoinable message, indistinguishable from the logical empty-result
outcome on the same inputs. -/
theorem joinRoomHome_storeError_collapsed :
    (joinRoomHome "guest1" "AB12" [] (some "connection refused")).1 =
      HomeJoinOutcome.errorMsg "Kode tidak ditemukan atau room sudah penuh." ∧
    (joinRoomHome "guest1" "AB12" [] (some "connection refused")).1 =
      (joinRoomHome "guest1" "AB12" [] none).1 :=
  ⟨rfl, rfl⟩

/-- C5 (amended): in `src/pages/index.js` a non-null store error is
surfaced through the dedicated store-error branch carrying the store's own
message, and is never reported as the notJoinable outcome. -/
theorem joinRoomClient_storeError_distinct (clientId : Option String)
    (roomCode msg : String) (store : List Room)
    (hc : truthyStr clientId = true) (hl : roomCode.length = 4) :
    (joinRoomClient clientId roomCode store (some msg)).1 =
      JoinOutcome.storeError
        (if msg == "" then "Terjadi kesalahan saat bergabung." else msg) ∧
    ∀ m, (joinRoomClient clientId roomCode store (some msg)).1 ≠
      JoinOutcome.notJoinable m := by
  have hout : joinRoomClient clientId roomCode store (some msg) =
      (joinRpcResult (some msg) [], store) := by
    simp [joinRoomClient, hc, hl]
  rw [hout]
  exact ⟨rfl, fun m => by simp [joinRpcResult]⟩

/-- C5 witness: a concrete store error is reported verbatim by the
index.js variant and is not the notJoinable outcome. -/
theorem joinRoomClient_storeError_distinct_witness :
    (joinRoomClient (some "guest1") "AB12" [] (some "connection refused")).1 =
      JoinOutcome.storeError "connection refused" ∧
    ∀ m, (joinRoomClient (some "guest1") "AB12" [] (some "connection refused")).1 ≠
      JoinOutcome.notJoinable m := by
  have h := joinRoomClient_storeError_distinct (some "guest1") "AB12"
    "connection refused" [] (by decide) (by decide)
  exact ⟨h.1.trans (by decide), h.2⟩

/- Theorems for the send flow. -/

/-- C3: in both send-flow implementations, an announcement appears in the
trace only when the grant request returned OK and the byte transfer
completed with a success status (and then the flow ends `sent`); hence a
failed grant request or a failed transfer publishes no announcement. -/
theorem handleUpload_publish_after_success (files : List FileData)
    (zipBlob : FileData) (env : ThumbEnv) (grantResp : HttpResult)
    (xhr : XhrEvent) (file : FileData) (thumbRes : ThumbResult)
    (vGrant : Option Grant) (putOk : Bool) :
    (∀ p, UploadStep.publish p ∈ (handleUpload files zipBlob env grantResp xhr).1 →
      ∃ g s, grantResp = HttpResult.ok g ∧ xhr = XhrEvent.load s ∧
        200 ≤ s ∧ s < 300 ∧
        (handleUpload files zipBlob env grantResp xhr).2 = UploadOutcome.sent) ∧
    (∀ p, VUploadStep.publish p ∈ (handleUploadVariant file thumbRes vGrant putOk).1 →
      ∃ g, vGrant = some g ∧ putOk = true ∧
        (handleUploadVariant file thumbRes vGrant putOk).2 = UploadOutcome.sent) := by
  constructor
  · intro p hp
    rcases files with _ | ⟨f0, rest⟩
    · simp [handleUpload] at hp
    · by_cases hsz :
        200 * 1024 * 1024 < (if 1 < (f0 :: rest).length then zipBlob else f0).size
      · simp only [handleUpload] at hp
        rw [if_pos hsz] at hp
        simp at hp
      · simp only [handleUpload] at hp
        rw [if_neg hsz] at hp
        rcases hth : createThumbnail (some f0) env with v | m | _
        all_goals simp only [hth] at hp
        · cases grantResp with
          | httpError m => simp at hp
          | ok g =>
            cases xhr with
            | load s =>
              by_cases h2 : 200 ≤ s ∧ s < 300
              · refine ⟨g, s, rfl, rfl, h2.1, h2.2, ?_⟩
                simp only [handleUpload]
                rw [if_neg hsz]
                simp [hth, h2]
              · simp [h2] at hp
            | netError => simp at hp
            | aborted => simp at hp
        · simp at hp
        · simp at hp
  · intro p hp
    rcases thumbRes with v | m | _
    · cases vGrant with
      | none => simp [handleUploadVariant] at hp
      | some g =>
        cases putOk with
        | true => exact ⟨g, rfl, rfl, by simp [handleUploadVariant]⟩
        | false => simp [handleUploadVariant] at hp
    · simp [handleUploadVariant] at hp
    · simp [handleUploadVariant] at hp

/-- C3 witness: a concrete successful single-file send publishes its
announcement, and the theorem recovers the OK grant and the 200 status. -/
theorem handleUpload_publish_after_success_witness :
    ∃ g s, HttpResult.ok { uploadUrl := "u", downloadUrl := "d" } = HttpResult.ok g ∧
      XhrEvent.load 200 = XhrEvent.load s ∧ 200 ≤ s ∧ s < 300 ∧
      (handleUpload [{ name := "report.pdf", type := "application/pdf",
                       size := 1048576 }]
        { name := "z", type := "", size := 0 }
        { readEvent := ReadEvent.failed, imgEvent := ImgEvent.failed,
          encode := fun _ _ => EncodeResult.thrown }
        (HttpResult.ok { uploadUrl := "u", downloadUrl := "d" })
        (XhrEvent.load 200)).2 = UploadOutcome.sent :=
  (handleUpload_publish_after_success
    [{ name := "report.pdf", type := "application/pdf", size := 1048576 }]
    { name := "z", type := "", size := 0 }
    { readEvent := ReadEvent.failed, imgEvent := ImgEvent.failed,
      encode := fun _ _ => EncodeResult.thrown }
    (HttpResult.ok { uploadUrl := "u", downloadUrl := "d" })
    (XhrEvent.load 200)
    { name := "x", type := "", size := 0 } (ThumbResult.resolved none)
    none false).1
    { fileName := "report.pdf", url := "d", thumbnail := none,
      type := "application/pdf", size := 1048576 }
    (by decide)

/-- C4: a payload published by the send flow and delivered by the
broadcast channel to an active subscriber is stored by the recipient
handler unchanged, so its fileName, MIME type, size and download URL are
identical to the published ones. -/
theorem announcement_roundtrip (files : List FileData) (zipBlob : FileData)
    (env : ThumbEnv) (grantResp : HttpResult) (xhr : XhrEvent)
    (p : Payload) (st : ReceiverState) (now : Nat)
    (_hp : UploadStep.publish p ∈ (handleUpload files zipBlob env grantResp xhr).1) :
    (onBroadcast st (channelDeliver (sendAnnouncement p)) now).incomingFile =
      some p ∧
    ∀ q, (onBroadcast st (channelDeliver (sendAnnouncement p)) now).incomingFile =
        some q →
      q.fileName = p.fileName ∧ q.type = p.type ∧ q.size = p.size ∧
        q.url = p.url := by
  constructor
  · simp [onBroadcast, channelDeliver, sendAnnouncement]
  · intro q hq
    simp [onBroadcast, channelDeliver, sendAnnouncement] at hq
    rw [← hq]
    exact ⟨rfl, rfl, rfl, rfl⟩

/-- C4 witness: a concrete published announcement arrives as the incoming
file, bit-for-bit. -/
theorem announcement_roundtrip_witness :
    (onBroadcast { incomingFile := none, history := [] }
        (channelDeliver (sendAnnouncement
          { fileName := "report.pdf", url := "d", thumbnail := none,
            type := "application/pdf", size := 1048576 })) 0).incomingFile =
      some { fileName := "report.pdf", url := "d", thumbnail := none,
             type := "application/pdf", size := 1048576 } :=
  (announcement_roundtrip
    [{ name := "report.pdf", type := "application/pdf", size := 1048576 }]
    { name := "z", type := "", size := 0 }
    { readEvent := ReadEvent.failed, imgEvent := ImgEvent.failed,
      encode := fun _ _ => EncodeResult.thrown }
    (HttpResult.ok { uploadUrl := "u", downloadUrl := "d" })
    (XhrEvent.load 200)
    { fileName := "report.pdf", url := "d", thumbnail := none,
      type := "application/pdf", size := 1048576 }
    { incomingFile := none, history := [] } 0 (by decide)).1

/-- C6: an oversized payload short-circuits the send flow with the
size-limit error and an empty network trace — the 200MB limit of
`src/pages/index.js` applies to the single file or to the zipped bundle,
the 100MB limit of the mock variant to its single file, which also
performs no network step and delivers nothing. -/
theorem sizeLimit_shortCircuit (f0 : FileData) (rest : List FileData)
    (zipBlob : FileData) (env : ThumbEnv) (grantResp : HttpResult)
    (xhr : XhrEvent) (file : FileData) (objectUrl : String) :
    (rest = [] → 200 * 1024 * 1024 < f0.size →
      handleUpload (f0 :: rest) zipBlob env grantResp xhr =
        ([], UploadOutcome.failed "File terlalu besar (Maks 200MB).")) ∧
    (rest ≠ [] → 200 * 1024 * 1024 < zipBlob.size →
      handleUpload (f0 :: rest) zipBlob env grantResp xhr =
        ([], UploadOutcome.failed "File terlalu besar (Maks 200MB).")) ∧
    (100 * 1024 * 1024 < file.size →
      handleUploadMock (some file) env objectUrl =
        ([], UploadOutcome.failed "File terlalu besar. Maksimum 100MB.", none)) := by
  refine ⟨?_, ?_, ?_⟩
  · intro hrest hsz
    subst hrest
    have hlen : ¬ (1 < (f0 :: ([] : List FileData)).length) := by simp
    simp only [handleUpload, if_neg hlen]
    rw [if_pos hsz]
  · intro hrest hsz
    have hlen : 1 < (f0 :: rest).length := by
      cases rest with
      | nil => exact absurd rfl hrest
      | cons a t => simp [List.length]
    simp only [handleUpload, if_pos hlen]
    rw [if_pos hsz]
  · intro hsz
    simp only [handleUploadMock]
    rw [if_pos hsz]

/-- C6 witness: a 250MB file is rejected by the 200MB check of
`src/pages/index.js` and by the 100MB check of the mock variant, with no
network step in either case. -/
theorem sizeLimit_shortCircuit_witness :
    handleUpload [{ name := "big.bin", type := "application/octet-stream",
                    size := 250 * 1024 * 1024 }]
        { name := "z", type := "", size := 0 }
        { readEvent := ReadEvent.failed, imgEvent := ImgEvent.failed,
          encode := fun _ _ => EncodeResult.thrown }
        (HttpResult.ok { uploadUrl := "u", downloadUrl := "d" })
        (XhrEvent.load 200) =
      ([], UploadOutcome.failed "File terlalu besar (Maks 200MB).") ∧
    handleUploadMock
        (some { name := "big.bin", type := "application/octet-stream",
                size := 250 * 1024 * 1024 })
        { readEvent := ReadEvent.failed, imgEvent := ImgEvent.failed,
          encode := fun _ _ => EncodeResult.thrown } "blob:u" =
      ([], UploadOutcome.failed "File terlalu besar. Maksimum 100MB.", none) := by
  have h := sizeLimit_shortCircuit
    { name := "big.bin", type := "application/octet-stream",
      size := 250 * 1024 * 1024 } []
    { name := "z", type := "", size := 0 }
    { readEvent := ReadEvent.failed, imgEvent := ImgEvent.failed,
      encode := fun _ _ => EncodeResult.thrown }
    (HttpResult.ok { uploadUrl := "u", downloadUrl := "d" })
    (XhrEvent.load 200)
    { name := "big.bin", type := "application/octet-stream",
      size := 250 * 1024 * 1024 } "blob:u"
  exact ⟨h.1 rfl (by decide), h.2.2 (by decide)⟩

/- Theorems for the idle-timeout sweep. -/

/-- C7: the sweep interval is fixed at 60 seconds; when the last activity
is older than 30 minutes a tick runs `cancelRoom`, which emits the store
deletion of the held room's record (not merely clearing local state, which
is also cleared), and applying that deletion removes the record from the
store. -/
theorem cleanupTick_deletes_stale (r : Room) (lastActivity now : Nat)
    (store : List Room) (h : 30 * 60 * 1000 < now - lastActivity) :
    cleanupIntervalMs = 60 * 1000 ∧
    cleanupTick (some r) lastActivity now =
      (none, [StoreAction.deleteRoom r.id]) ∧
    ∀ rm ∈ applyStoreAction store (StoreAction.deleteRoom r.id), rm.id ≠ r.id := by
  refine ⟨rfl, ?_, ?_⟩
  · simp [cleanupTick, idleLimitMs, h, cancelRoom]
  · intro rm hrm
    simp [applyStoreAction, List.mem_filter] at hrm
    exact hrm.2

/-- C7 witness: a room created at T0 with no activity is swept at T0+31
minutes; the tick clears the local room and deletes the store record. -/
theorem cleanupTick_deletes_stale_witness :
    cleanupIntervalMs = 60 * 1000 ∧
    cleanupTick
        (some { id := 9, room_code := "K7M2", host_id := "host123",
                guest_id := none, status := Status.waiting }) 0 (31 * 60 * 1000) =
      (none, [StoreAction.deleteRoom 9]) ∧
    ∀ rm ∈ applyStoreAction
        [{ id := 9, room_code := "K7M2", host_id := "host123",
           guest_id := none, status := Status.waiting }]
        (StoreAction.deleteRoom 9), rm.id ≠ 9 :=
  cleanupTick_deletes_stale
    { id := 9, room_code := "K7M2", host_id := "host123",
      guest_id := none, status := Status.waiting } 0 (31 * 60 * 1000)
    [{ id := 9, room_code := "K7M2", host_id := "host123",
       guest_id := none, status := Status.waiting }]
    (by decide)

/- Theorems for the thumbnail utility. -/

/-- C10: refuted — the code hangs where the claim requires resolution. In
both cited variants the `Image` identifier is shadowed by an imported
component (`next/image` in index.js, the lucide-react icon in part_000), so
for an image file whose read succeeds neither `onload` nor `onerror` ever
fires and `createThumbnail` never settles, even in an environment whose
decoder and encoder would both succeed; the enumerated null cases
(absent file, non-image MIME type, reader error) do still resolve
`null`. -/
theorem createThumbnail_hangs_on_image :
    createThumbnail (some { name := "pic.png", type := "image/png", size := 10 })
        { readEvent := ReadEvent.loaded "data:image/png;base64,AAAA",
          imgEvent := ImgEvent.loaded 100 80,
          encode := fun _ _ => EncodeResult.ok "thumb" } =
      ThumbResult.unsettled ∧
    createThumbnailVariant
        (some { name := "pic.png", type := "image/png", size := 10 })
        { readEvent := ReadEvent.loaded "data:image/png;base64,AAAA",
          imgEvent := ImgEvent.loaded 100 80,
          encode := fun _ _ => EncodeResult.ok "thumb" } =
      ThumbResult.unsettled ∧
    createThumbnail none
        { readEvent := ReadEvent.loaded "x", imgEvent := ImgEvent.failed,
          encode := fun _ _ => EncodeResult.thrown } =
      ThumbResult.resolved none ∧
    createThumbnail (some { name := "a.txt", type := "text/plain", size := 10 })
        { readEvent := ReadEvent.loaded "x", imgEvent := ImgEvent.failed,
          encode := fun _ _ => EncodeResult.thrown } =
      ThumbResult.resolved none ∧
    createThumbnailVariant
        (some { name := "a.txt", type := "text/plain", size := 10 })
        { readEvent := ReadEvent.loaded "x", imgEvent := ImgEvent.failed,
          encode := fun _ _ => EncodeResult.thrown } =
      ThumbResult.resolved none ∧
    createThumbnail (some { name := "pic.png", type := "image/png", size := 10 })
        { readEvent := ReadEvent.failed, imgEvent := ImgEvent.failed,
          encode := fun _ _ => EncodeResult.thrown } =
      ThumbResult.resolved none := by
  refine ⟨?_, ?_, rfl, ?_, ?_, ?_⟩ <;> decide

end Laju
